import Mathlib

/-!
Verification of the XBee gateway application (xbgw) against its
natural-language specification.  Python sources are shallowly embedded as
executable Lean definitions; machine integers become Nat/Int, fallible
operations return Option/Except, and the effects of listener functions
(queue puts, table mutation, send attempts) are returned explicitly.
-/

set_option maxRecDepth 4000

/-! ## Transmission-ID slot table (src/xbgw/xbee/utils.py, TxStatusCallbacks)

The Python class wraps a fixed-size list of `max_id + 1` slots (index 0
reserved), a round-robin base index and a lock.  The lock only serializes
access and has no sequential behavior, so it is dropped.  `add_callback`
returns `none` where Python raises `CallbacksFull`; `remove_callback` and
`get_callback` return `none` where Python raises `IndexError`. -/

structure TxStatusCallbacks (α : Type) where
  callbacks : List (Option α)
  baseindex : Nat
  max_id : Nat
deriving Repr, DecidableEq

namespace TxStatusCallbacks

/-- Constructor `TxStatusCallbacks.__init__`: `max_id + 1` empty slots,
base index 1. -/
def init (α : Type) (max_id : Nat) : TxStatusCallbacks α :=
  { callbacks := List.replicate (max_id + 1) none
    baseindex := 1
    max_id := max_id }

/-- Local `start` of `_next_index`: `self._baseindex % (self.max_id + 1)`. -/
def scan_start (t : TxStatusCallbacks α) : Nat :=
  t.baseindex % (t.max_id + 1)

/-- Local `cblist` of `_next_index`:
`self._callbacks[start:] + self._callbacks[1:start]`. -/
def cblist (t : TxStatusCallbacks α) : List (Option α) :=
  t.callbacks.drop (scan_start t) ++ (t.callbacks.take (scan_start t)).drop 1

/-- Method `_next_index`: finds the next open slot in the callback list
scanning from the base index (wrapping, skipping slot 0), or 0 if there
is no open slot.  `cblist.index(None)` is `List.findIdx? Option.isNone`;
`ValueError` from `.index` is the `none` branch of the match. -/
def next_index (t : TxStatusCallbacks α) : Nat :=
  match (cblist t).findIdx? (fun o => o.isNone) with
  | some p =>
      if p + scan_start t > (cblist t).length then
        (p + scan_start t) % (cblist t).length
      else
        p + scan_start t
  | none => 0

/-- Method `add_callback`: allocate the slot returned by `_next_index`,
store the listener, advance the base index (wrapping past `max_id` to 1).
Returns `none` where Python raises `CallbacksFull`. -/
def add_callback (t : TxStatusCallbacks α) (listener : α) :
    Option (Nat × TxStatusCallbacks α) :=
  let txid := t.next_index
  if txid = 0 then
    none
  else
    let cbs := t.callbacks.set txid (some listener)
    let b := t.baseindex + 1
    some (txid, { t with callbacks := cbs
                         baseindex := if b > t.max_id then 1 else b })

/-- Method `remove_callback`: clear the slot.  Python rejects
`txid <= 0 or txid > max_id` with `IndexError` (here `none`); a `Nat`
argument makes the negative case the `txid = 0` case. -/
def remove_callback (t : TxStatusCallbacks α) (txid : Nat) :
    Option (TxStatusCallbacks α) :=
  if txid = 0 ∨ txid > t.max_id then
    none
  else
    some { t with callbacks := t.callbacks.set txid none }

/-- Method `get_callback`: read the slot; outer `none` is Python's
`IndexError` for an out-of-range id. -/
def get_callback (t : TxStatusCallbacks α) (txid : Nat) :
    Option (Option α) :=
  if txid = 0 ∨ txid > t.max_id then
    none
  else
    some (t.callbacks.getD txid none)

/-- Proof-side description of the slot probed at offset `j` of the scan:
offsets below `len - start` land on slots `start + j`, later offsets wrap
to slots `1 .. start - 1`. -/
def probe (t : TxStatusCallbacks α) (j : Nat) : Nat :=
  if j < t.callbacks.length - scan_start t then
    scan_start t + j
  else
    j - (t.callbacks.length - scan_start t) + 1

/-- Proof-side inverse of `probe`: the scan offset at which slot `k` is
probed. -/
def offsetOf (t : TxStatusCallbacks α) (k : Nat) : Nat :=
  if scan_start t ≤ k then
    k - scan_start t
  else
    (t.callbacks.length - scan_start t) + (k - 1)

end TxStatusCallbacks

/-- Scenario of the spec's round-robin example (and of the repository test
`test_txscb_id_wraps`, reordered as the spec states it): with `max_id = 5`,
fill all five slots, free id 2, then free id 1, then allocate twice;
returns the two allocated transmission ids. -/
def txRoundRobinScenario : Option (Nat × Nat) :=
  ((((((((TxStatusCallbacks.init Nat 5).add_callback 10).bind
    (fun r => r.2.add_callback 11)).bind
    (fun r => r.2.add_callback 12)).bind
    (fun r => r.2.add_callback 13)).bind
    (fun r => r.2.add_callback 14)).bind
    (fun r => r.2.remove_callback 2)).bind
    (fun t => t.remove_callback 1)).bind
    (fun t => (t.add_callback 20).bind
      (fun r => (r.2.add_callback 21).map (fun r2 => (r.1, r2.1))))

/-! ## Address normalization (src/xbgw/xbee/utils.py, normalize_ieee_address)

Python's `string.hexdigits`, hex parsing (`long(s, 16)`) and `%` formatting
are reproduced directly; `ValueError`/`TypeError` become `Except` errors. -/

/-- Python `string.hexdigits`. -/
def hexdigitsStr : String := "0123456789abcdefABCDEF"

/-- Membership in `string.hexdigits` (`c in string.hexdigits`),
computed over the character list. -/
def isPyHexDigit (c : Char) : Bool := hexdigitsStr.toList.contains c

/-- Value of one hex digit as `long(_, 16)` reads it (case-insensitive). -/
def hexCharVal (c : Char) : Nat :=
  if '0' ≤ c ∧ c ≤ '9' then c.toNat - '0'.toNat
  else if 'a' ≤ c ∧ c ≤ 'f' then c.toNat - 'a'.toNat + 10
  else if 'A' ≤ c ∧ c ≤ 'F' then c.toNat - 'A'.toNat + 10
  else 0

/-- Python `long(hexonly, 16)` on a string of hex digits. -/
def parseHexDigits (cs : List Char) : Nat :=
  cs.foldl (fun acc c => 16 * acc + hexCharVal c) 0

/-- Python `string.hexdigits[k]` (indices 0..15 give `0`-`9`, `a`-`f`). -/
def hexdigitChar (k : Nat) : Char := hexdigitsStr.toList.getD k '0'

/-- One byte of the address as formatted by `normalize_ieee_address`:
`string.hexdigits[0xF & (value >> (i * 8 + 4))].upper()` followed by
`string.hexdigits[0xF & (value >> (i * 8))].upper()`.  Python `>>` on a
possibly-negative int is floor division (`Int.fdiv`), and `0xF & x` is
`x mod 16` (nonnegative). -/
def pyByteHex (value : Int) (i : Nat) : String :=
  String.mk [(hexdigitChar ((value.fdiv (2 ^ (i * 8 + 4))) % 16).toNat).toUpper,
             (hexdigitChar ((value.fdiv (2 ^ (i * 8))) % 16).toNat).toUpper]

/-- Tail of `normalize_ieee_address`: `':'.join(...)` over bytes 7 down
to 0, wrapped as `[..]!`. -/
def pyFormatAddress (value : Int) : String :=
  "[" ++ String.intercalate ":"
    (((List.range 8).reverse).map (fun i => pyByteHex value i)) ++ "]!"

/-- Dynamic type of the Python `address` argument: `basestring`, `int`/
`long`, or anything else (which raises `TypeError`). -/
inductive AddrInput where
  | str (s : String)
  | int (n : Int)
  | other
deriving Repr, DecidableEq

/-- Python exceptions raised by `normalize_ieee_address`. -/
inductive NormError where
  | valueError (msg : String)
  | typeError (msg : String)
deriving Repr, DecidableEq

/-- Function `normalize_ieee_address`: filter hex digits out of a string
(1..16 digits required) or accept an int/long as-is, then format the low
64 bits as `[XX:..:XX]!`. -/
def normalize_ieee_address : AddrInput → Except NormError String
  | .str address =>
    let hexonly := address.toList.filter isPyHexDigit
    if 0 < hexonly.length ∧ hexonly.length ≤ 16 then
      .ok (pyFormatAddress (Int.ofNat (parseHexDigits hexonly)))
    else if hexonly.length > 16 then
      .error (.valueError
        ("Address is too long (" ++ toString hexonly.length ++ " chars)"))
    else
      .error (.valueError
        ("Address is too short (" ++ toString hexonly.length ++ " chars)"))
  | .int n => .ok (pyFormatAddress n)
  | .other =>
    .error (.typeError "Network address must be given as a string, int or long")

/-! ## I/O sample decoder (src/xbgw/xbee/io_sample.py, parse_is)

Byte buffers become `List Nat` (each entry one byte); `struct.unpack` on a
too-short slice raises `struct.error`, modeled as `none`.  The Python dict
is modeled as the association list in insertion order (its keys are
distinct). -/

/-- Value decoded for one channel: digital samples are booleans, analog
samples 16-bit integers. -/
inductive IOVal where
  | digital (b : Bool)
  | analog (v : Nat)
deriving Repr, DecidableEq

/-- Digital while-loop of `parse_is`: walk the mask bits, emitting
`DIO{n} = bool(datavals & 1)` for each set mask bit. -/
def digiLoop (datamask datavals currentDI : Nat) : List (String × IOVal) :=
  if h : datamask = 0 then []
  else
    (if datamask % 2 = 1 then
      [("DIO" ++ toString currentDI, IOVal.digital (datavals % 2 == 1))]
    else []) ++ digiLoop (datamask / 2) (datavals / 2) (currentDI + 1)
termination_by datamask
decreasing_by exact Nat.div_lt_self (Nat.pos_of_ne_zero h) (by omega)

/-- Analog while-loop of `parse_is`: for each set bit of the mask (low to
high) consume one 16-bit big-endian word and emit `AD{n}`. -/
def anaLoop (analogmask : Nat) (data : List Nat) (currentAI : Nat) :
    Option (List (String × IOVal)) :=
  if h : analogmask = 0 then some []
  else
    if analogmask % 2 = 1 then
      match data with
      | a :: b :: rest =>
        (anaLoop (analogmask / 2) rest (currentAI + 1)).map
          (fun l => ("AD" ++ toString currentAI, IOVal.analog (a * 256 + b)) :: l)
      | _ => none
    else
      anaLoop (analogmask / 2) data (currentAI + 1)
termination_by analogmask
decreasing_by
  all_goals exact Nat.div_lt_self (Nat.pos_of_ne_zero h) (by omega)

/-- Body of `parse_is` after the masks are split: if the digital mask is
nonzero, consume one 16-bit word of digital values and run the digital
loop, then always run the analog loop on the remaining bytes. -/
def processMasks (datamask analogmask : Nat) (data : List Nat) :
    Option (List (String × IOVal)) :=
  if datamask ≠ 0 then
    match data with
    | a :: b :: rest =>
      (anaLoop analogmask rest 0).map
        (fun l => digiLoop datamask (a * 256 + b) 0 ++ l)
    | _ => none
  else
    anaLoop analogmask data 0

/-- Function `parse_is`: branch on length parity; even length has a 4-byte
header (reserved, 16-bit digital mask, 8-bit analog mask), odd length a
3-byte header whose 16-bit mask splits as `mask % 512` (digital) and
`mask >> 9` (analog). -/
def parse_is (data : List Nat) : Option (List (String × IOVal)) :=
  if data.length % 2 = 0 then
    match data with
    | _ :: m1 :: m2 :: am :: rest => processMasks (m1 * 256 + m2) am rest
    | _ => none
  else
    match data with
    | _ :: m1 :: m2 :: rest =>
      processMasks ((m1 * 256 + m2) % 512) ((m1 * 256 + m2) / 512) rest
    | _ => none

/-! ## XML elements and reply-channel items (src/xbgw/command/rci.py)

`xml.etree.ElementTree.Element` is modeled structurally: tag, attribute
list, text, children.  A reply channel's contents are modeled as the list
of items `put` on it, in order. -/

/-- An ElementTree element. -/
inductive Element where
  | mk (tag : String) (attrs : List (String × String)) (text : Option String)
      (children : List Element)

/-- Tag accessor. -/
def Element.tag : Element → String
  | .mk t _ _ _ => t

/-- Attribute-list accessor. -/
def Element.attrs : Element → List (String × String)
  | .mk _ a _ _ => a

/-- Text accessor. -/
def Element.text : Element → Option String
  | .mk _ _ x _ => x

/-- Children accessor. -/
def Element.children : Element → List Element
  | .mk _ _ _ c => c

/-- Python assignment `element.tag = tag`. -/
def Element.setTag (tag : String) : Element → Element
  | .mk _ a x c => .mk tag a x c

/-- Function `ErrorResponse` of rci.py: a `response` element holding an
`error` element with the id attribute, a `desc` child with the catalog
message, and a `hint` child when the hint is truthy (Python `if hint:`
skips both `None` and the empty string).  Python would raise `KeyError`
for a code missing from `errdb`; every call site uses a present code, so
the `getD` default is never exercised. -/
def ErrorResponse (errcode : String) (errdb : List (String × String))
    (hint : Option String) : Element :=
  Element.mk "response" [] none
    [Element.mk "error" [("id", errcode)] none
      ([Element.mk "desc" [] (some ((errdb.lookup errcode).getD "")) []] ++
        (match hint with
        | some h => if h = "" then [] else [Element.mk "hint" [] (some h) []]
        | none => []))]

/-- Module-level `errors` of rci.py. -/
def rci_errors : List (String × String) :=
  [("command.unknown", "Command not handled"),
   ("command.timeout", "Timeout or unexpected exit waiting for response")]

/-- Module-level `BLOCKING_LIMIT` of rci.py (seconds passed to
`Queue.get`). -/
def BLOCKING_LIMIT : Nat := 30

/-- A value pushed on a reply channel that is neither the sentinel nor a
`DeferredResponse`: an `Element`, or any other object kept as its
`str()`. -/
inductive RPayload where
  | el (e : Element)
  | str (s : String)

/-- One item on a command's reply channel: the `ResponsePending` sentinel,
a `DeferredResponse` wrapper, or an immediate value. -/
inductive RItem where
  | pending
  | deferred (p : RPayload)
  | item (p : RPayload)

/-- Normalization applied to each popped value in `process_command`: a
non-Element is wrapped into a fresh `response` element carrying its
`str()`, and the tag is forced to `response` in either case. -/
def toResponseElem : RPayload → Element
  | .el e => e.setTag "response"
  | .str s => (Element.mk "response" [] (some s) []).setTag "response"

/-- Collection loop of `process_command`.  The thread-safe queue is
modeled by the items already on the channel when the loop starts
(`queue`, FIFO) plus the outcomes of later blocking pops (`arrivals`:
`some r` is an item arriving within the `BLOCKING_LIMIT` bound, `none` is
a `Queue.Empty` timeout; an exhausted arrival list likewise stands for an
expired bound).  `deferred` is the Python counter (an int, so it may go
negative); returns the collected reply children and the final counter. -/
def drain (queue : List RItem) (arrivals : List (Option RItem))
    (deferred : Int) (acc : List Element) : List Element × Int :=
  match queue with
  | r :: rest =>
    match r with
    | .pending => drain rest arrivals (deferred + 1) acc
    | .deferred p => drain rest arrivals (deferred - 1) (acc ++ [toResponseElem p])
    | .item p => drain rest arrivals deferred (acc ++ [toResponseElem p])
  | [] =>
    if deferred > 0 then
      match arrivals with
      | some r :: rest2 => drain [r] rest2 deferred acc
      | none :: _ => (acc, deferred)
      | [] => (acc, deferred)
    else
      (acc, deferred)
termination_by queue.length + 2 * arrivals.length
decreasing_by
  all_goals simp only [List.length_cons, List.length_nil]
  all_goals omega

/-- Function `process_command`, as a function of the command element's
tag, the items subscribers put on the fresh channel during the
synchronous publish (`published`, in order), and the outcomes of later
blocking pops (`arrivals`).  Returns the aggregate `responses` element:
`command.unknown` when the channel is empty after publish, the collected
children, and one `command.timeout` error per outstanding deferral. -/
def process_command (tag : String) (published : List RItem)
    (arrivals : List (Option RItem)) : Element :=
  let initial :=
    if published.isEmpty then
      [ErrorResponse "command.unknown" rci_errors (some tag)]
    else []
  let result := drain published arrivals 0 []
  let timeouts :=
    if result.2 > 0 then
      List.replicate result.2.toNat (ErrorResponse "command.timeout" rci_errors none)
    else []
  Element.mk "responses" [("command", tag)] none (initial ++ result.1 ++ timeouts)

/-! ## Serial manager status callback (src/xbgw/xbee/manager.py) -/

/-- Module-level `TX_STATUSES` of manager.py. -/
def TX_STATUSES : List (Nat × String) :=
  [(0x00, "Success"),
   (0x01, "MAC ACK Failure"),
   (0x02, "CCA Failure"),
   (0x15, "Invalid destination endpoint"),
   (0x21, "Network ACK Failure"),
   (0x22, "Not joined to network"),
   (0x23, "Self addressed"),
   (0x24, "Address not found"),
   (0x25, "Route not found"),
   (0x26, "Broadcast source failed to hear a neighbor relay the message"),
   (0x2b, "Invalid binding table index"),
   (0x2c, "Resource error; lack of free buffers, timers, etc"),
   (0x2d, "Attempted broadcast with APS transmission"),
   (0x2e, "Attempted unicast with APS transmission, but EE=0"),
   (0x32, "Resource error; lack of free buffers, times, etc"),
   (0x74, "Data payload too large")]

/-- Module-level `errors` of manager.py. -/
def manager_errors : List (String × String) :=
  [("address", "Invalid address"),
   ("encoding", "Unrecognized encoding"),
   ("base64", "Unable to decode as base64"),
   ("invalidattr", "Attribute value is incorrect"),
   ("missingattr", "Missing required command attribute"),
   ("toomanyattrs", "Too many attributes were given"),
   ("txfailed", "Transmit operation failed"),
   ("txfull", "Too many outstanding transmits"),
   ("txstatus", "TX Status delivery failure"),
   ("unexpected", "Unexpected/unclassified error")]

/-- Hex digits of `n`, lowercase, most significant first (empty for 0). -/
def toHexCore (n : Nat) : List Char :=
  if h : n = 0 then []
  else toHexCore (n / 16) ++ [hexdigitChar (n % 16)]
termination_by n
decreasing_by exact Nat.div_lt_self (Nat.pos_of_ne_zero h) (by omega)

/-- Python `"%02x" % n`: lowercase hex, zero-padded to two characters. -/
def pyHex02 (n : Nat) : String :=
  let ds := if n = 0 then ['0'] else toHexCore n
  String.mk (if ds.length < 2 then '0' :: ds else ds)

/-- Module-level `status_callback` of manager.py, as a function of the
delivery status byte; the value it puts on the response channel is
returned.  (The address, retry and discovery-status arguments are only
logged and do not affect the reply.) -/
def serial_status_callback (delivery_status : Nat) : RItem :=
  if delivery_status ≠ 0 then
    RItem.deferred (.el (ErrorResponse "txstatus" manager_errors
      (some ("0x" ++ pyHex02 delivery_status ++ ": " ++
        ((TX_STATUSES.lookup delivery_status).getD "Unknown")))))
  else
    RItem.deferred (.el (Element.mk "response" [] (some "") []))

/-! ## DDO manager status callback (src/xbgw/xbee/ddo_manager.py)

The `socket.XBS_STAT_*` platform constants take the values the repository
test suite fixes for them (tests/test_xbee_ddo_manager.py lines 36-40). -/

def XBS_STAT_OK : Nat := 0
def XBS_STAT_ERROR : Nat := 1
def XBS_STAT_BADCMD : Nat := 2
def XBS_STAT_BADPARAM : Nat := 3
def XBS_STAT_TXFAIL : Nat := 4

/-- Module-level `TX_STATUSES` of ddo_manager.py. -/
def DDO_TX_STATUSES : List (Nat × String) :=
  [(XBS_STAT_OK, "Success"),
   (XBS_STAT_ERROR, "Error"),
   (XBS_STAT_BADCMD, "Invalid DDO command name"),
   (XBS_STAT_BADPARAM, "Invalid DDO command value"),
   (XBS_STAT_TXFAIL, "Transmit failure")]

/-- Module-level `errors` of ddo_manager.py. -/
def ddo_errors : List (String × String) :=
  [("address", "Invalid address"),
   ("badoutput", "Invalid digital output value"),
   ("invalidattr", "Attribute value is incorrect"),
   ("missingattr", "Missing required command attribute"),
   ("toomanyattrs", "Too many attributes were given"),
   ("ddo_error", "DDO command error"),
   ("badcmd", "Invalid DDO command name"),
   ("badparam", "Invalid DDO command value"),
   ("txfailed", "Transmit operation failed"),
   ("txfull", "Too many outstanding transmits"),
   ("unexpected", "Unexpected/unclassified error")]

/-- Module-level `status_callback` of ddo_manager.py, as a function of
the response payload `data` and the address fields it destructures; the
value it puts on the response channel is returned.  The final branch is
Python's fall-through (a bare `response` element) should no `elif` match;
it is unreachable once the status is in `TX_STATUSES`. -/
def ddo_status_callback (data : Option String) (address sent_cmd : String)
    (status : Nat) : RItem :=
  if (DDO_TX_STATUSES.lookup status).isNone then
    RItem.deferred (.el (ErrorResponse "unexpected" ddo_errors
      (some ("Unexpected status: " ++ toString status))))
  else if status = XBS_STAT_OK then
    RItem.deferred (.el (Element.mk "response" [] (some (data.getD "")) []))
  else if status = XBS_STAT_TXFAIL then
    RItem.deferred (.el (ErrorResponse "txfailed" ddo_errors (some address)))
  else if status = XBS_STAT_BADCMD then
    RItem.deferred (.el (ErrorResponse "badcmd" ddo_errors (some sent_cmd)))
  else if status = XBS_STAT_BADPARAM then
    RItem.deferred (.el (ErrorResponse "badparam" ddo_errors none))
  else if status = XBS_STAT_ERROR then
    RItem.deferred (.el (ErrorResponse "ddo_error" ddo_errors none))
  else
    RItem.deferred (.el (Element.mk "response" [] none []))

/-- Extractor for proofs: the id attribute of the error child of a reply
element, if any. -/
def errorIdOf (e : Element) : Option String :=
  match e.children with
  | c :: _ => c.attrs.lookup "id"
  | [] => none

/-- Extractor for proofs: the error id carried by a deferred reply. -/
def errorIdOfItem : RItem → Option String
  | .deferred (.el e) => errorIdOf e
  | _ => none

/-! ## Non-blocking send path (manager.py / ddo_manager.py)

Both managers poll for write readiness with zero timeout and issue at
most one `sendto`.  The environment of one `attempt_send` call (poll
results, descriptor, `sendto` outcome) is passed in explicitly. -/

/-- Python `select.POLLOUT` (Linux value 4), compared for exact equality
by `attempt_send`. -/
def POLLOUT : Nat := 4

/-- A Python `socket.error` as the listeners inspect it: `e.message`,
`os.strerror(e.errno)` (`none` when `os.strerror` raises `ValueError`),
and `str(e)`. -/
structure PySockError where
  message : String
  strerror : Option String
  strRepr : String
deriving Repr, DecidableEq

/-- Environment of one `attempt_send` call: the `(fd, event)` pairs
returned by `poller.poll(0)`, the socket's descriptor, and the outcome of
`sendto` if it is reached (`none` = success, `.inl` = `socket.error`,
`.inr` = any other exception as its `str()`). -/
structure SendEnv where
  fds : List (Nat × Nat)
  sockfd : Nat
  sendtoResult : Option (PySockError ⊕ String)

/-- Outcome of `attempt_send` as its caller observes it. -/
inductive SendAttemptResult where
  | sent
  | sockUnavail (msg : String)
  | sockErr (e : PySockError)
  | exc (s : String)
deriving Repr, DecidableEq

/-- Method `attempt_send` (identical in both managers): raise
`SocketUnavailable("No poll events returned")` on an empty poll result;
otherwise look for this socket's descriptor with event exactly `POLLOUT`
(the for/else loop) and send once, or raise
`SocketUnavailable("Socket not available for write")`. -/
def attempt_send (env : SendEnv) : SendAttemptResult :=
  if env.fds.isEmpty then
    .sockUnavail "No poll events returned"
  else
    match env.fds.find? (fun fe => fe.1 == env.sockfd && fe.2 == POLLOUT) with
    | some _ =>
      match env.sendtoResult with
      | none => .sent
      | some (.inl e) => .sockErr e
      | some (.inr s) => .exc s
    | none => .sockUnavail "Socket not available for write"

/-- The error-message recovery of both send listeners for a caught
`socket.error`: `e.message`, or `os.strerror(e.errno)` when the message
is falsy, or `str(e)` when `os.strerror` raises `ValueError`. -/
def errmsgOf (e : PySockError) : String :=
  if e.message ≠ "" then e.message
  else
    match e.strerror with
    | some s => s
    | none => e.strRepr

/-- Truthiness of an `element.get(..)` result (`None` and the empty
string are falsy). -/
def pyTruthyAttr : Option String → Bool
  | none => false
  | some s => s != ""

/-- The command element as the listeners read it: attributes and text. -/
structure CmdElement where
  attrs : List (String × String)
  text : Option String

/-- Observable effects of one listener invocation: the values put on the
reply channel in order, the transmission-ID table afterwards, and whether
`attempt_send` was invoked.  Stored callbacks are closures over the reply
channel; their behavior is modeled separately by the status-callback
functions, so the stored value is an opaque `Unit`. -/
structure ListenerResult where
  puts : List RItem
  table : TxStatusCallbacks Unit
  sendAttempted : Bool

/-! ## Serial send listener (manager.py, send_serial_listener) -/

/-- Address block of `send_serial_listener`: require a truthy `addr`,
alias `broadcast`, then normalize.  `ValueError` becomes the `address`
error, any other exception (e.g. `TypeError`) the `unexpected` one; the
`Except.error` payload is the element put on the channel. -/
def ssl_validate_addr (elem : CmdElement) : Except Element String :=
  let addr0 := elem.attrs.lookup "addr"
  if pyTruthyAttr addr0 = false then
    .error (ErrorResponse "missingattr" manager_errors
      (some "No destination XBee address (attribute 'addr') given."))
  else
    let a := addr0.getD ""
    let a2 := if a = "broadcast" then "[00:00:00:00:00:00:FF:FF]!" else a
    match normalize_ieee_address (.str a2) with
    | .ok v => .ok v
    | .error (.valueError m) =>
      .error (ErrorResponse "address" manager_errors (some m))
    | .error (.typeError m) =>
      .error (ErrorResponse "unexpected" manager_errors
        (some ("Problem parsing address: " ++ m)))

/-- Encoding block of `send_serial_listener`: decode the body per the
`encoding` attribute.  `b64` stands for the stdlib `base64.b64decode`
(`none` = `TypeError`, also raised on a `None` body); a `None` body under
`utf-8` raises `AttributeError`, which no handler catches — the outer
`none` models that escape. -/
def ssl_decode (encoding : String) (text : Option String)
    (b64 : Option String → Option (List Nat)) :
    Option (Except Element (List Nat)) :=
  if encoding = "base64" then
    match b64 text with
    | some m => some (.ok m)
    | none => some (.error (ErrorResponse "base64" manager_errors none))
  else if encoding = "utf-8" then
    match text with
    | some s => some (.ok (s.toUTF8.toList.map (fun b => b.toNat)))
    | none => none
  else
    some (.error (ErrorResponse "encoding" manager_errors (some encoding)))

/-- Allocate/send block of `send_serial_listener`: allocate a transmission
id (a full table puts one `txfull` error), attempt the send, and on any
send failure release the id and put one `txfailed` error whose hint is
the recovered message; on success put the `ResponsePending` sentinel.
Both `SocketUnavailable` messages are nonempty, so the recovered message
is `e.message` itself.  The outer `none` is an escaped exception from
`remove_callback`, impossible for a well-formed table. -/
def ssl_send (t : TxStatusCallbacks Unit) (env : SendEnv) :
    Option ListenerResult :=
  match t.add_callback () with
  | none =>
    some ⟨[RItem.item (.el (ErrorResponse "txfull" manager_errors none))],
      t, false⟩
  | some (txid, t2) =>
    match attempt_send env with
    | .sent => some ⟨[RItem.pending], t2, true⟩
    | .sockUnavail m =>
      (t2.remove_callback txid).map (fun t3 =>
        ⟨[RItem.item (.el (ErrorResponse "txfailed" manager_errors (some m)))],
          t3, true⟩)
    | .sockErr e =>
      (t2.remove_callback txid).map (fun t3 =>
        ⟨[RItem.item (.el (ErrorResponse "txfailed" manager_errors
            (some (errmsgOf e))))], t3, true⟩)
    | .exc s =>
      (t2.remove_callback txid).map (fun t3 =>
        ⟨[RItem.item (.el (ErrorResponse "txfailed" manager_errors (some s)))],
          t3, true⟩)

/-- Listener `send_serial_listener`, returning its observable effects;
`none` models an exception escaping the listener (nothing put).  The
destination descriptor built for `sendto` (`utils.Address`, which cannot
fail on the already-normalized address) is part of the send environment
and not otherwise observable. -/
def send_serial_listener (elem : CmdElement)
    (b64 : Option String → Option (List Nat))
    (t : TxStatusCallbacks Unit) (env : SendEnv) : Option ListenerResult :=
  match ssl_validate_addr elem with
  | .error e => some ⟨[RItem.item (.el e)], t, false⟩
  | .ok _addr =>
    match ssl_decode ((elem.attrs.lookup "encoding").getD "base64")
        elem.text b64 with
    | none => none
    | some (.error e) => some ⟨[RItem.item (.el e)], t, false⟩
    | some (.ok _msg) => ssl_send t env

/-! ## DDO digital-output listener (ddo_manager.py, digital_out_listener) -/

/-- Python `str.lower()` for the ASCII strings these commands carry,
computed over the character list. -/
def pyLower (s : String) : String := String.mk (s.toList.map Char.toLower)

/-- Python whitespace set recognized by `str.strip()`. -/
def pySpace (c : Char) : Bool :=
  c = ' ' ∨ c = '\t' ∨ c = '\n' ∨ c = '\r' ∨ c = '\x0b' ∨ c = '\x0c'

/-- Python `str.strip()`: drop leading and trailing whitespace. -/
def pyStrip (s : String) : String :=
  String.mk (((s.toList.dropWhile pySpace).reverse.dropWhile pySpace).reverse)

/-- Python `int(s)` on the decimal strings the listener can receive:
optional surrounding whitespace, optional sign, at least one digit;
`none` is `ValueError`. -/
def pyParseInt (s : String) : Option Int :=
  let cs := (pyStrip s).toList
  let sign : Int := match cs with
    | '-' :: _ => -1
    | _ => 1
  let ds := match cs with
    | '-' :: rest => rest
    | '+' :: rest => rest
    | _ => cs
  if ds ≠ [] ∧ ds.all (fun c => c.isDigit) then
    some (sign *
      (ds.foldl (fun acc c => 10 * acc + (c.toNat - '0'.toNat)) 0 : Nat))
  else none

/-- `BAD_NAME_MAP` of ddo_manager.py: the literal entries plus `AD0`..
`AD6` appended by the module-level loop. -/
def BAD_NAME_MAP : List (String × Nat) :=
  [("ASSOC", 5), ("RTS", 6), ("CTS", 7),
   ("DTR", 8), ("SLEEP_RQ", 8), ("ON", 9), ("SLEEP", 9),
   ("PWM0", 10), ("RSSI", 10), ("P0", 10),
   ("PWM", 11), ("P1", 11), ("P2", 12),
   ("AD0", 0), ("AD1", 1), ("AD2", 2), ("AD3", 3),
   ("AD4", 4), ("AD5", 5), ("AD6", 6)]

/-- `PIN_MAP` of ddo_manager.py: `DIO0`..`DIO12` and `D0`..`D9`, as built
by the module-level loop. -/
def PIN_MAP : List (String × Nat) :=
  [("DIO0", 0), ("D0", 0), ("DIO1", 1), ("D1", 1), ("DIO2", 2), ("D2", 2),
   ("DIO3", 3), ("D3", 3), ("DIO4", 4), ("D4", 4), ("DIO5", 5), ("D5", 5),
   ("DIO6", 6), ("D6", 6), ("DIO7", 7), ("D7", 7), ("DIO8", 8), ("D8", 8),
   ("DIO9", 9), ("D9", 9), ("DIO10", 10), ("DIO11", 11), ("DIO12", 12)]

/-- `INVERSE_PIN_MAP` of ddo_manager.py: preferred names per pin. -/
def INVERSE_PIN_MAP : List (Nat × List String) :=
  [(0, ["DIO0", "D0"]), (1, ["DIO1", "D1"]), (2, ["DIO2", "D2"]),
   (3, ["DIO3", "D3"]), (4, ["DIO4", "D4"]), (5, ["DIO5", "D5"]),
   (6, ["DIO6", "D6"]), (7, ["DIO7", "D7"]), (8, ["DIO8", "D8"]),
   (9, ["DIO9", "D9"]), (10, ["DIO10"]), (11, ["DIO11"]), (12, ["DIO12"])]

/-- `distutils.util.strtobool` (which lowercases its argument):
`none` is `ValueError`. -/
def strtobool (v : String) : Option Nat :=
  let val := pyLower v
  if ["y", "yes", "t", "true", "on", "1"].contains val then some 1
  else if ["n", "no", "f", "false", "off", "0"].contains val then some 0
  else none

/-- Function `_parse_digital_value`: "low" maps to 4, "high" to 5,
boolean-like literals to `strtobool + 4`, anything else to 0
(invalid). -/
def parse_digital_value (value : String) : Nat :=
  let value_l := pyLower value
  if value_l = "low" then 4
  else if value_l = "high" then 5
  else
    match strtobool value with
    | some n => n + 4
    | none => 0

/-- Function `_pin_index_to_setting`: `D{n}` below 10, else `P{n-10}`. -/
def pin_index_to_setting (pin : Int) : String :=
  if pin < 10 then "D" ++ toString pin else "P" ++ toString (pin - 10)

/-- Attribute-presence and index/name resolution block of
`digital_out_listener`: exactly one of `index` (an integer 0..12 after
`int()`, with parse failures mapped to -1) or `name` must be given;
deprecated aliases are rejected with a hint naming the preferred forms,
valid aliases resolve through `PIN_MAP`, unknown names are rejected. -/
def dol_resolve_pin (indexAttr nameAttr : Option String) :
    Except Element Int :=
  if pyTruthyAttr indexAttr = false ∧ pyTruthyAttr nameAttr = false then
    .error (ErrorResponse "missingattr" ddo_errors
      (some ("No digital output pin number (attribute 'index') or "
        ++ "name alias (attribute 'name') given")))
  else if indexAttr ≠ none ∧ nameAttr ≠ none then
    .error (ErrorResponse "toomanyattrs" ddo_errors
      (some "Must specify only an index or a name, not both."))
  else if pyTruthyAttr indexAttr then
    let index := (pyParseInt (indexAttr.getD "")).getD (-1)
    if index < 0 ∨ index > 12 then
      .error (ErrorResponse "invalidattr" ddo_errors
        (some "Pin number ('index') must be an integer between 0 and 12"))
    else .ok index
  else
    let name := nameAttr.getD ""
    match BAD_NAME_MAP.lookup name with
    | some pin =>
      match INVERSE_PIN_MAP.lookup pin with
      | some suggestions =>
        .error (ErrorResponse "invalidattr" ddo_errors
          (some ("Bad digital output name; use "
            ++ String.intercalate " or " suggestions ++ " instead.")))
      | none => .error (ErrorResponse "invalidattr" ddo_errors (some name))
    | none =>
      match PIN_MAP.lookup name with
      | some pin => .ok (pin : Int)
      | none =>
        .error (ErrorResponse "invalidattr" ddo_errors
          (some ("Unrecognized digital output name: '" ++ name ++ "'")))

/-- Allocate/send block of `digital_out_listener`: identical in shape to
the serial one (the `ResponsePending` put sits inside the `try`, which is
observably the same), with the DDO error catalog. -/
def dol_send (t : TxStatusCallbacks Unit) (env : SendEnv) :
    Option ListenerResult :=
  match t.add_callback () with
  | none =>
    some ⟨[RItem.item (.el (ErrorResponse "txfull" ddo_errors none))],
      t, false⟩
  | some (txid, t2) =>
    match attempt_send env with
    | .sent => some ⟨[RItem.pending], t2, true⟩
    | .sockUnavail m =>
      (t2.remove_callback txid).map (fun t3 =>
        ⟨[RItem.item (.el (ErrorResponse "txfailed" ddo_errors (some m)))],
          t3, true⟩)
    | .sockErr e =>
      (t2.remove_callback txid).map (fun t3 =>
        ⟨[RItem.item (.el (ErrorResponse "txfailed" ddo_errors
            (some (errmsgOf e))))], t3, true⟩)
    | .exc s =>
      (t2.remove_callback txid).map (fun t3 =>
        ⟨[RItem.item (.el (ErrorResponse "txfailed" ddo_errors (some s)))],
          t3, true⟩)

/-- Listener `digital_out_listener`, returning its observable effects.
Both `ValueError` and `TypeError` from normalization map to the `address`
error (the generic `unexpected` handler is unreachable for string
input).  `value` is `element.text or ""` stripped of whitespace. -/
def digital_out_listener (elem : CmdElement) (t : TxStatusCallbacks Unit)
    (env : SendEnv) : Option ListenerResult :=
  let addr0 := elem.attrs.lookup "addr"
  let value := pyStrip (elem.text.getD "")
  if pyTruthyAttr addr0 = false then
    some ⟨[RItem.item (.el (ErrorResponse "missingattr" ddo_errors
      (some "No destination XBee address (attribute 'addr') given.")))],
      t, false⟩
  else
    match normalize_ieee_address (.str (addr0.getD "")) with
    | .error (.valueError m) =>
      some ⟨[RItem.item (.el (ErrorResponse "address" ddo_errors (some m)))],
        t, false⟩
    | .error (.typeError m) =>
      some ⟨[RItem.item (.el (ErrorResponse "address" ddo_errors (some m)))],
        t, false⟩
    | .ok _addr =>
      match dol_resolve_pin (elem.attrs.lookup "index")
          (elem.attrs.lookup "name") with
      | .error e => some ⟨[RItem.item (.el e)], t, false⟩
      | .ok index =>
        if index = 9 then
          some ⟨[RItem.item (.el (ErrorResponse "invalidattr" ddo_errors
            (some "DIO9 cannot be configured for digital")))], t, false⟩
        else
          let parsed_value := parse_digital_value value
          if parsed_value = 0 then
            some ⟨[RItem.item (.el (ErrorResponse "badoutput" ddo_errors
              (some value)))], t, false⟩
          else
            dol_send t env

/-! ## I/O duplicate suppression (manager.py, _process_analog and
_process_digital)

The shared `_last_report` dict holds ints for analog channels and bools
for digital ones; Python 2 `bool` is an `int` subclass, so comparisons go
through the numeric value. -/

/-- A value in the `_last_report` cache. -/
inductive PyVal where
  | intV (n : Int)
  | boolV (b : Bool)
deriving Repr, DecidableEq

/-- Numeric value (Python 2 `bool` is an `int`). -/
def PyVal.toInt : PyVal → Int
  | .intV n => n
  | .boolV b => if b then 1 else 0

/-- Python `==` on cache values. -/
def pyValEq (a b : PyVal) : Bool := a.toInt == b.toInt

/-- Cache key `"{} - {}".format(addr[0], key)`. -/
def filterKeyOf (addr0 key : String) : String := addr0 ++ " - " ++ key

/-- One message published on `xbee.analog` or `xbee.digitalIn`:
`ident=(addr[0], key)` and the value. -/
structure PubMsg where
  ident : String × String
  value : PyVal
deriving Repr, DecidableEq

/-- Method `_process_analog`, as a function of the two settings it reads
(`filter_analog_duplicates` and `minimum_analog_change`), the cache, and
the reading; returns the publication (if any) and the cache afterwards. -/
def process_analog (filtered : Bool) (difference : Int)
    (last_report : String → Option PyVal) (addr0 key : String)
    (value : Int) : Option PubMsg × (String → Option PyVal) :=
  let filter_key := filterKeyOf addr0 key
  let publish : Option PubMsg × (String → Option PyVal) :=
    (some ⟨(addr0, key), PyVal.intV value⟩,
     fun k => if k = filter_key then some (PyVal.intV value)
              else last_report k)
  if filtered then
    match last_report filter_key with
    | some old_value =>
      if |value - old_value.toInt| < difference then
        (none, last_report)
      else publish
    | none => publish
  else publish

/-- Method `_process_digital`, as a function of the
`filter_digital_duplicates` setting, the cache, and the reading. -/
def process_digital (filtered : Bool)
    (last_report : String → Option PyVal) (addr0 key : String)
    (value : Bool) : Option PubMsg × (String → Option PyVal) :=
  let filter_key := filterKeyOf addr0 key
  let publish : Option PubMsg × (String → Option PyVal) :=
    (some ⟨(addr0, key), PyVal.boolV value⟩,
     fun k => if k = filter_key then some (PyVal.boolV value)
              else last_report k)
  if filtered then
    match last_report filter_key with
    | some old_value =>
      if pyValEq old_value (PyVal.boolV value) then
        (none, last_report)
      else publish
    | none => publish
  else publish

-- ### END OF DEFINITIONS (claim definitions are inserted above this line) ###

/-! ## Allocator lemmas -/

namespace TxStatusCallbacks

variable {α : Type}

theorem scan_start_eq (t : TxStatusCallbacks α)
    (h2 : t.baseindex ≤ t.max_id) : scan_start t = t.baseindex :=
  Nat.mod_eq_of_lt (by omega)

theorem cblist_length (t : TxStatusCallbacks α)
    (hlen : t.callbacks.length = t.max_id + 1)
    (hs1 : 1 ≤ scan_start t) (hs2 : scan_start t ≤ t.max_id) :
    (cblist t).length = t.max_id := by
  simp only [cblist, List.length_append, List.length_drop, List.length_take]
  omega

theorem probe_bounds (t : TxStatusCallbacks α)
    (hlen : t.callbacks.length = t.max_id + 1)
    (hs1 : 1 ≤ scan_start t) (hs2 : scan_start t ≤ t.max_id)
    {j : Nat} (hj : j < t.max_id) :
    1 ≤ probe t j ∧ probe t j ≤ t.max_id := by
  unfold probe
  split <;> omega

theorem probe_inj (t : TxStatusCallbacks α)
    (hlen : t.callbacks.length = t.max_id + 1)
    (hs1 : 1 ≤ scan_start t) (hs2 : scan_start t ≤ t.max_id)
    {j1 j2 : Nat} (hj1 : j1 < t.max_id) (hj2 : j2 < t.max_id)
    (h : probe t j1 = probe t j2) : j1 = j2 := by
  unfold probe at h
  split at h <;> split at h <;> omega

theorem cblist_getElem? (t : TxStatusCallbacks α)
    (hlen : t.callbacks.length = t.max_id + 1)
    (hs1 : 1 ≤ scan_start t) (hs2 : scan_start t ≤ t.max_id)
    {j : Nat} (hj : j < t.max_id) :
    (cblist t)[j]? = t.callbacks[probe t j]? := by
  unfold cblist probe
  by_cases hcase : j < t.callbacks.length - scan_start t
  · rw [if_pos hcase, List.getElem?_append_left (by simp [List.length_drop]; omega),
      List.getElem?_drop]
  · rw [if_neg hcase,
      List.getElem?_append_right (by simp [List.length_drop]; omega),
      List.getElem?_drop, List.getElem?_take, List.length_drop,
      if_pos (by omega)]
    congr 1
    omega

theorem offsetOf_lt (t : TxStatusCallbacks α)
    (hlen : t.callbacks.length = t.max_id + 1)
    (hs1 : 1 ≤ scan_start t) (hs2 : scan_start t ≤ t.max_id)
    {k : Nat} (hk1 : 1 ≤ k) (hk2 : k ≤ t.max_id) :
    offsetOf t k < t.max_id := by
  unfold offsetOf
  split <;> omega

theorem probe_offsetOf (t : TxStatusCallbacks α)
    (hlen : t.callbacks.length = t.max_id + 1)
    (hs1 : 1 ≤ scan_start t) (hs2 : scan_start t ≤ t.max_id)
    {k : Nat} (hk1 : 1 ≤ k) (hk2 : k ≤ t.max_id) :
    probe t (offsetOf t k) = k := by
  unfold probe offsetOf
  by_cases hcase : scan_start t ≤ k
  · rw [if_pos hcase, if_pos (by omega)]
    omega
  · rw [if_neg hcase, if_neg (by omega)]
    omega

end TxStatusCallbacks

namespace TxStatusCallbacks

variable {α : Type}

/-- Unfolding equation for `add_callback`. -/
theorem add_callback_eq (t : TxStatusCallbacks α) (l : α) :
    t.add_callback l =
      if t.next_index = 0 then none
      else some (t.next_index,
        { t with callbacks := t.callbacks.set t.next_index (some l)
                 baseindex := if t.baseindex + 1 > t.max_id then 1
                              else t.baseindex + 1 }) := rfl

/-- Setting a slot to the value it already holds leaves the list unchanged. -/
theorem set_getElem?_self {l : List (Option α)} {i : Nat} {a : Option α}
    (h : l[i]? = some a) : l.set i a = l := by
  obtain ⟨hi, hv⟩ := List.getElem?_eq_some.mp h
  apply List.ext_getElem?
  intro n
  by_cases hn : n = i
  · subst hn
    rw [List.getElem?_set_self hi, h]
  · rw [List.getElem?_set_ne (fun he => hn he.symm)]

/-- The wrap-around arithmetic at the end of `_next_index` recovers the
slot index probed at offset `p`. -/
theorem index_arith (t : TxStatusCallbacks α)
    (hlen : t.callbacks.length = t.max_id + 1)
    (hs1 : 1 ≤ scan_start t) (hs2 : scan_start t ≤ t.max_id)
    {p : Nat} (hp : p < t.max_id) :
    (if p + scan_start t > (cblist t).length then
      (p + scan_start t) % (cblist t).length
    else p + scan_start t) = probe t p := by
  rw [cblist_length t hlen hs1 hs2]
  unfold probe
  by_cases hcase : p < t.callbacks.length - scan_start t
  · rw [if_pos hcase, if_neg (by omega)]
    omega
  · rw [if_neg hcase, if_pos (by omega),
      Nat.mod_eq_sub_mod (by omega), Nat.mod_eq_of_lt (by omega)]
    omega

/-- Slot contents seen through `getD` agree with `getElem?` on in-range
indices. -/
theorem getD_isSome_iff (t : TxStatusCallbacks α)
    (hlen : t.callbacks.length = t.max_id + 1)
    {j : Nat} (hj : j ≤ t.max_id) :
    (t.callbacks.getD j none).isSome = true ↔
      ∃ a, t.callbacks[j]? = some (some a) := by
  have hjl : j < t.callbacks.length := by omega
  rw [List.getD_eq_getElem?_getD, List.getElem?_eq_getElem hjl]
  cases hv : t.callbacks[j] <;> simp [hv]

end TxStatusCallbacks

namespace TxStatusCallbacks

variable {α : Type}

/-- When slot `k` is the only free slot among `1 .. max_id`, the scan finds
exactly `k`, wherever the base index currently points. -/
theorem next_index_eq_of_free (t : TxStatusCallbacks α)
    (hlen : t.callbacks.length = t.max_id + 1)
    (hb1 : 1 ≤ t.baseindex) (hb2 : t.baseindex ≤ t.max_id)
    {k : Nat} (hk1 : 1 ≤ k) (hk2 : k ≤ t.max_id)
    (hfree : t.callbacks[k]? = some none)
    (hfull : ∀ j ≤ t.max_id, 1 ≤ j → j ≠ k →
      (t.callbacks.getD j none).isSome = true) :
    t.next_index = k := by
  have hs1 : 1 ≤ scan_start t := by rw [scan_start_eq t hb2]; exact hb1
  have hs2 : scan_start t ≤ t.max_id := by rw [scan_start_eq t hb2]; exact hb2
  have hoff : offsetOf t k < t.max_id := offsetOf_lt t hlen hs1 hs2 hk1 hk2
  have hprobe : probe t (offsetOf t k) = k := probe_offsetOf t hlen hs1 hs2 hk1 hk2
  have hfind : (cblist t).findIdx? (fun o => o.isNone) = some (offsetOf t k) := by
    rw [List.findIdx?_eq_some_iff_getElem]
    have hofflen : offsetOf t k < (cblist t).length := by
      rw [cblist_length t hlen hs1 hs2]; exact hoff
    refine ⟨hofflen, ?_, ?_⟩
    · have h1 : (cblist t)[offsetOf t k]? = some none := by
        rw [cblist_getElem? t hlen hs1 hs2 hoff, hprobe]; exact hfree
      have h2 := List.getElem?_eq_getElem hofflen
      rw [h1] at h2
      simp [← Option.some.inj h2.symm]
    · intro j hj
      have hjm : j < t.max_id := Nat.lt_trans hj hoff
      have hpj1 := (probe_bounds t hlen hs1 hs2 hjm).1
      have hpj2 := (probe_bounds t hlen hs1 hs2 hjm).2
      have hne : probe t j ≠ k := by
        intro he
        exact absurd (probe_inj t hlen hs1 hs2 hjm hoff (he.trans hprobe.symm))
          (Nat.ne_of_lt hj)
      obtain ⟨a, ha⟩ := (getD_isSome_iff t hlen hpj2).mp
        (hfull (probe t j) hpj2 hpj1 hne)
      have h1 : (cblist t)[j]? = some (some a) := by
        rw [cblist_getElem? t hlen hs1 hs2 hjm]; exact ha
      have hjlen : j < (cblist t).length := by
        rw [cblist_length t hlen hs1 hs2]; exact hjm
      have h2 := List.getElem?_eq_getElem hjlen
      rw [h1] at h2
      rw [← Option.some.inj h2]
      simp
  unfold next_index
  rw [hfind]
  simp only
  rw [index_arith t hlen hs1 hs2 hoff]
  exact hprobe

/-- When every slot `1 .. max_id` is occupied, the scan exhausts the probe
list and `_next_index` returns 0. -/
theorem next_index_eq_zero_of_full (t : TxStatusCallbacks α)
    (hlen : t.callbacks.length = t.max_id + 1)
    (hb1 : 1 ≤ t.baseindex) (hb2 : t.baseindex ≤ t.max_id)
    (hfull : ∀ j ≤ t.max_id, 1 ≤ j →
      (t.callbacks.getD j none).isSome = true) :
    t.next_index = 0 := by
  have hs1 : 1 ≤ scan_start t := by rw [scan_start_eq t hb2]; exact hb1
  have hs2 : scan_start t ≤ t.max_id := by rw [scan_start_eq t hb2]; exact hb2
  have hfind : (cblist t).findIdx? (fun o => o.isNone) = none := by
    rw [List.findIdx?_eq_none_iff]
    intro x hx
    obtain ⟨j, hj, hxe⟩ := List.mem_iff_getElem.mp hx
    have hjm : j < t.max_id := by
      rw [cblist_length t hlen hs1 hs2] at hj; exact hj
    have hpj1 := (probe_bounds t hlen hs1 hs2 hjm).1
    have hpj2 := (probe_bounds t hlen hs1 hs2 hjm).2
    obtain ⟨a, ha⟩ := (getD_isSome_iff t hlen hpj2).mp (hfull (probe t j) hpj2 hpj1)
    have h1 : (cblist t)[j]? = some (some a) := by
      rw [cblist_getElem? t hlen hs1 hs2 hjm]; exact ha
    have h2 := List.getElem?_eq_getElem hj
    rw [h1] at h2
    rw [← hxe, Option.some.inj h2.symm]
    rfl
  unfold next_index
  rw [hfind]

/-- Forward direction: a nonzero `_next_index` result is an in-range slot
that is currently empty. -/
theorem next_index_free_slot (t : TxStatusCallbacks α)
    (hlen : t.callbacks.length = t.max_id + 1)
    (hb1 : 1 ≤ t.baseindex) (hb2 : t.baseindex ≤ t.max_id)
    (hne : t.next_index ≠ 0) :
    1 ≤ t.next_index ∧ t.next_index ≤ t.max_id ∧
      t.callbacks[t.next_index]? = some none := by
  have hs1 : 1 ≤ scan_start t := by rw [scan_start_eq t hb2]; exact hb1
  have hs2 : scan_start t ≤ t.max_id := by rw [scan_start_eq t hb2]; exact hb2
  cases hfind : (cblist t).findIdx? (fun o => o.isNone) with
  | none =>
    exfalso
    apply hne
    unfold next_index
    rw [hfind]
  | some p =>
    obtain ⟨hp, hnone, -⟩ := List.findIdx?_eq_some_iff_getElem.mp hfind
    have hpm : p < t.max_id := by
      rwa [cblist_length t hlen hs1 hs2] at hp
    have hXeq : t.next_index = probe t p := by
      unfold next_index
      rw [hfind]
      exact index_arith t hlen hs1 hs2 hpm
    rw [hXeq]
    refine ⟨(probe_bounds t hlen hs1 hs2 hpm).1,
      (probe_bounds t hlen hs1 hs2 hpm).2, ?_⟩
    have h1 : (cblist t)[p]? = t.callbacks[probe t p]? :=
      cblist_getElem? t hlen hs1 hs2 hpm
    have h2 := List.getElem?_eq_getElem hp
    have h3 : (cblist t)[p] = none := by simpa using hnone
    rw [← h1, h2, h3]

end TxStatusCallbacks

/-! ## Claim C1 and C6 -/

/-- Claim C1, counterexample: after filling all `max_id = 5` slots, freeing
slot 2 and then slot 1, the next two allocations return 1 and then 2 — not
2 and then 1 as the claim states.  (After the table fills, the round-robin
cursor has wrapped to 1, so the scan finds slot 1 first.) -/
theorem c1_round_robin_counterexample :
    txRoundRobinScenario = some (1, 2) ∧ txRoundRobinScenario ≠ some (2, 1) := by
  decide

/-- Claim C1, amended: transmission-ID allocation is a cursor-based scan:
starting from a table whose `max_id` slots are all occupied, releasing slot
`k` and then allocating returns `k` (whatever the cursor); in particular,
after filling all slots (which wraps the cursor back to 1), freeing id 2
and then id 1, the next two allocations return 1 and then 2, in that
order. -/
theorem c1_round_robin_allocation :
    (∀ (α : Type) (t : TxStatusCallbacks α) (l : α) (k : Nat),
      t.callbacks.length = t.max_id + 1 →
      1 ≤ t.baseindex → t.baseindex ≤ t.max_id →
      1 ≤ k → k ≤ t.max_id →
      (∀ j ≤ t.max_id, 1 ≤ j → (t.callbacks.getD j none).isSome = true) →
      ((t.remove_callback k).bind
        (fun tr => tr.add_callback l)).map Prod.fst = some k)
    ∧ txRoundRobinScenario = some (1, 2) := by
  constructor
  · intro α t l k hlen hb1 hb2 hk1 hk2 hfull
    have hrem : t.remove_callback k =
        some { t with callbacks := t.callbacks.set k none } := by
      unfold TxStatusCallbacks.remove_callback
      rw [if_neg (by omega)]
    rw [hrem]
    show (TxStatusCallbacks.add_callback _ l).map Prod.fst = some k
    have hlen2 : (t.callbacks.set k none).length = t.max_id + 1 := by
      rw [List.length_set]; exact hlen
    have hfree : (({ t with callbacks := t.callbacks.set k none } :
        TxStatusCallbacks α)).callbacks[k]? = some none := by
      show (t.callbacks.set k none)[k]? = some none
      exact List.getElem?_set_self (by omega)
    have hfull2 : ∀ j ≤ (({ t with callbacks := t.callbacks.set k none } :
        TxStatusCallbacks α)).max_id, 1 ≤ j → j ≠ k →
        ((({ t with callbacks := t.callbacks.set k none } :
          TxStatusCallbacks α)).callbacks.getD j none).isSome = true := by
      intro j hj hj1 hjk
      show ((t.callbacks.set k none).getD j none).isSome = true
      rw [List.getD_eq_getElem?_getD,
        List.getElem?_set_ne (fun he => hjk he.symm),
        ← List.getD_eq_getElem?_getD]
      exact hfull j hj hj1
    have hnk : TxStatusCallbacks.next_index
        { t with callbacks := t.callbacks.set k none } = k :=
      TxStatusCallbacks.next_index_eq_of_free
        { t with callbacks := t.callbacks.set k none }
        hlen2 hb1 hb2 hk1 hk2 hfree hfull2
    rw [TxStatusCallbacks.add_callback_eq, hnk, if_neg (by omega)]
    rfl
  · decide

/-- Claim C1 witness: a concrete table with `max_id = 3`, all slots full,
slot 2 freed and reallocated. -/
theorem c1_round_robin_allocation_witness :
    (((⟨[none, some 0, some 1, some 2], 2, 3⟩ :
        TxStatusCallbacks Nat).remove_callback 2).bind
      (fun tr => tr.add_callback 7)).map Prod.fst = some 2 :=
  c1_round_robin_allocation.1 Nat ⟨[none, some 0, some 1, some 2], 2, 3⟩ 7 2
    (by decide) (by decide) (by decide) (by decide) (by decide) (by decide)

/-- Claim C6: when every slot `1 .. max_id` of the transmission-ID table
holds a callback, the next allocation fails (`CallbacksFull`, here `none`)
after a full scan; no table state is produced, so the table is left
unchanged. -/
theorem c6_add_callback_full_fails :
    ∀ (α : Type) (t : TxStatusCallbacks α) (l : α),
      t.callbacks.length = t.max_id + 1 →
      1 ≤ t.baseindex → t.baseindex ≤ t.max_id →
      (∀ j ≤ t.max_id, 1 ≤ j → (t.callbacks.getD j none).isSome = true) →
      t.add_callback l = none := by
  intro α t l hlen hb1 hb2 hfull
  rw [TxStatusCallbacks.add_callback_eq,
    TxStatusCallbacks.next_index_eq_zero_of_full t hlen hb1 hb2 hfull,
    if_pos rfl]

/-- Claim C6 witness: a concrete full table with `max_id = 3`. -/
theorem c6_add_callback_full_fails_witness :
    (⟨[none, some 0, some 1, some 2], 1, 3⟩ :
        TxStatusCallbacks Nat).add_callback 7 = none :=
  c6_add_callback_full_fails Nat ⟨[none, some 0, some 1, some 2], 1, 3⟩ 7
    (by decide) (by decide) (by decide) (by decide)

/-! ## Claim C3 -/

/-- Claim C3, counterexample: normalizing the negative integer -1 does not
fail; it yields the address formed from its low 64 two's-complement bits. -/
theorem c3_negative_address_counterexample :
    normalize_ieee_address (.int (-1)) = .ok "[FF:FF:FF:FF:FF:FF:FF:FF]!" := by
  rfl

/-- Claim C3, amended: a hex-string address is accepted exactly when it
contains 1..16 hex digits after separators are removed; integer inputs of
any size are always accepted, including negative ones, which do not fail:
a negative integer is rendered from its low 64 two's-complement bits, so
the normalized form itself carries no sign. -/
theorem c3_normalize_address :
    (∀ s : String,
      (∃ out, normalize_ieee_address (.str s) = .ok out) ↔
        (0 < (s.toList.filter isPyHexDigit).length ∧
          (s.toList.filter isPyHexDigit).length ≤ 16))
    ∧ (∀ n : Int, ∃ out, normalize_ieee_address (.int n) = .ok out)
    ∧ normalize_ieee_address (.int (-1)) =
        normalize_ieee_address (.int (2 ^ 64 - 1)) := by
  refine ⟨?_, ?_, ?_⟩
  · intro s
    by_cases h : 0 < (s.toList.filter isPyHexDigit).length ∧
        (s.toList.filter isPyHexDigit).length ≤ 16
    · simp only [normalize_ieee_address, if_pos h]
      exact ⟨fun _ => h, fun _ => ⟨_, rfl⟩⟩
    · simp only [normalize_ieee_address, if_neg h]
      constructor
      · rintro ⟨out, hout⟩
        split at hout <;> cases hout
      · intro hc
        exact absurd hc h
  · intro n
    exact ⟨_, rfl⟩
  · rfl

/-! ## Claim C7 -/

/-- Claim C7: decoding the 14-byte (even-length) sample
`01 FFF0 0F FFFF FFFF FFFF FFFF FFFF` yields exactly DIO4..DIO15 (each the
boolean of its bit in the first value word) followed by AD0..AD3 (each a
16-bit big-endian word), and nothing else. -/
theorem c7_parse_is_sample :
    parse_is [0x01, 0xFF, 0xF0, 0x0F,
              0xFF, 0xFF, 0xFF, 0xFF, 0xFF, 0xFF, 0xFF, 0xFF, 0xFF, 0xFF] =
      some [("DIO4", IOVal.digital true), ("DIO5", IOVal.digital true),
            ("DIO6", IOVal.digital true), ("DIO7", IOVal.digital true),
            ("DIO8", IOVal.digital true), ("DIO9", IOVal.digital true),
            ("DIO10", IOVal.digital true), ("DIO11", IOVal.digital true),
            ("DIO12", IOVal.digital true), ("DIO13", IOVal.digital true),
            ("DIO14", IOVal.digital true), ("DIO15", IOVal.digital true),
            ("AD0", IOVal.analog 0xFFFF), ("AD1", IOVal.analog 0xFFFF),
            ("AD2", IOVal.analog 0xFFFF), ("AD3", IOVal.analog 0xFFFF)] := by
  simp [parse_is, processMasks, digiLoop, anaLoop]
  decide

/-! ## Claim C2 -/

/-- Claim C2, counterexample: for the unrecognized nonzero delivery status
0x03, the serial manager's status callback produces a `txstatus` error,
not the generic `unexpected` error the claim requires. -/
theorem c2_serial_unknown_status_counterexample :
    errorIdOfItem (serial_status_callback 3) = some "txstatus" ∧
      some "txstatus" ≠ some "unexpected" := by
  exact ⟨rfl, by decide⟩

/-- Claim C2, amended: only the DDO manager's status callback maps a
status outside its recognized set to a deferred generic `unexpected`
error carrying the raw code as hint; the serial manager's status callback
classifies every nonzero delivery status as a deferred `txstatus` error
whose hint is the raw code in hex followed by `Unknown` when the code is
unrecognized. -/
theorem c2_unrecognized_status_replies :
    (∀ (d : Option String) (address sent_cmd : String) (status : Nat),
      DDO_TX_STATUSES.lookup status = none →
      ddo_status_callback d address sent_cmd status =
        RItem.deferred (.el (ErrorResponse "unexpected" ddo_errors
          (some ("Unexpected status: " ++ toString status)))))
    ∧ (∀ ds : Nat, ds ≠ 0 → TX_STATUSES.lookup ds = none →
      serial_status_callback ds =
        RItem.deferred (.el (ErrorResponse "txstatus" manager_errors
          (some ("0x" ++ pyHex02 ds ++ ": Unknown"))))) := by
  constructor
  · intro d address sent_cmd status h
    simp [ddo_status_callback, h]
  · intro ds h0 hl
    simp [serial_status_callback, h0, hl]
    rw [String.append_assoc]
    rfl

/-- Claim C2 witness: the DDO callback at unrecognized status 99 and the
serial callback at unrecognized nonzero status 3. -/
theorem c2_unrecognized_status_replies_witness :
    ddo_status_callback none "addr" "D1" 99 =
      RItem.deferred (.el (ErrorResponse "unexpected" ddo_errors
        (some ("Unexpected status: " ++ toString 99)))) ∧
    serial_status_callback 3 =
      RItem.deferred (.el (ErrorResponse "txstatus" manager_errors
        (some ("0x" ++ pyHex02 3 ++ ": Unknown")))) :=
  ⟨c2_unrecognized_status_replies.1 none "addr" "D1" 99 (by decide),
   c2_unrecognized_status_replies.2 3 (by decide) (by decide)⟩

/-! ## Claims C8 and C4 -/

/-- Claim C8: when the publish leaves the reply channel empty, the
aggregate reply has exactly one child, a `command.unknown` error whose
hint is the command's tag, and the element finishes without any blocking
pop (the arrival sequence is irrelevant). -/
theorem c8_unknown_command_reply :
    ∀ (tag : String) (arrivals : List (Option RItem)),
      process_command tag [] arrivals =
        Element.mk "responses" [("command", tag)] none
          [ErrorResponse "command.unknown" rci_errors (some tag)] := by
  intro tag arrivals
  unfold process_command drain
  simp

/-- Helper: the loop turns `k` leading `Pending` items into `k` increments
of the outstanding counter. -/
theorem drain_replicate_pending (k : Nat) (arrivals : List (Option RItem))
    (d : Int) (acc : List Element) :
    drain (List.replicate k RItem.pending) arrivals d acc =
      drain [] arrivals (d + (k : Int)) acc := by
  induction k generalizing d with
  | zero => simp
  | succ n ih =>
    rw [List.replicate_succ]
    rw [drain]
    rw [ih (d + 1)]
    congr 1
    omega

/-- Claim C4: Pending and Deferred replies are matched one-to-one: one
Pending answered by one Deferred within the bound yields exactly one
response child and no timeout error; when the bounded wait (the 30-unit
`BLOCKING_LIMIT`) expires with `k + 1` Pendings outstanding, the
aggregate reply carries exactly one `command.timeout` error per
still-unmatched Pending. -/
theorem c4_pending_deferred_matching :
    (∀ (tag : String) (p : RPayload),
      process_command tag [RItem.pending] [some (RItem.deferred p)] =
        Element.mk "responses" [("command", tag)] none [toResponseElem p])
    ∧ (∀ (tag : String) (k : Nat),
      process_command tag (List.replicate (k + 1) RItem.pending) [none] =
        Element.mk "responses" [("command", tag)] none
          (List.replicate (k + 1)
            (ErrorResponse "command.timeout" rci_errors none)))
    ∧ BLOCKING_LIMIT = 30 := by
  refine ⟨?_, ?_, rfl⟩
  · intro tag p
    simp [process_command, drain]
  · intro tag k
    unfold process_command
    rw [drain_replicate_pending]
    simp [drain]

namespace TxStatusCallbacks

variable {α : Type}

/-- Releasing the id that `add_callback` just allocated restores the slot
list exactly (the claimed slot was empty before the allocation). -/
theorem add_remove_restores (t : TxStatusCallbacks α) (l : α)
    (hlen : t.callbacks.length = t.max_id + 1)
    (hb1 : 1 ≤ t.baseindex) (hb2 : t.baseindex ≤ t.max_id)
    {txid : Nat} {t2 : TxStatusCallbacks α}
    (hadd : t.add_callback l = some (txid, t2)) :
    t2.remove_callback txid = some { t2 with callbacks := t.callbacks } := by
  rw [add_callback_eq] at hadd
  by_cases h0 : t.next_index = 0
  · rw [if_pos h0] at hadd
    cases hadd
  · rw [if_neg h0] at hadd
    cases hadd
    obtain ⟨hpos, hle, hslot⟩ := next_index_free_slot t hlen hb1 hb2 h0
    unfold remove_callback
    rw [if_neg (by simp only; omega)]
    simp only [List.set_set]
    rw [set_getElem?_self hslot]

end TxStatusCallbacks

/-! ## Claim C5 -/

/-- Claim C5: a send-time transport failure (socket not write-ready, or
an exception from `sendto`) in either listener puts exactly one immediate
`txfailed` error reply — no Pending, never a partial reply — and releases
the just-allocated transmission id, restoring the slot list; a full
allocator (`CallbacksFull`) puts exactly one immediate `txfull` error and
leaves the table untouched with no send attempted.  The last two parts
state that each listener, once its validation stages pass, behaves
exactly as its allocate/send block. -/
theorem c5_transport_failure_single_error :
    (∀ (t : TxStatusCallbacks Unit) (env : SendEnv),
      t.callbacks.length = t.max_id + 1 →
      1 ≤ t.baseindex → t.baseindex ≤ t.max_id →
      ∀ {txid : Nat} {t2 : TxStatusCallbacks Unit},
        t.add_callback () = some (txid, t2) →
        attempt_send env ≠ .sent →
        ∃ hint, ssl_send t env =
          some ⟨[RItem.item (.el (ErrorResponse "txfailed" manager_errors
            (some hint)))], { t2 with callbacks := t.callbacks }, true⟩)
    ∧ (∀ (t : TxStatusCallbacks Unit) (env : SendEnv),
      t.add_callback () = none →
      ssl_send t env =
        some ⟨[RItem.item (.el (ErrorResponse "txfull" manager_errors none))],
          t, false⟩)
    ∧ (∀ (t : TxStatusCallbacks Unit) (env : SendEnv),
      t.callbacks.length = t.max_id + 1 →
      1 ≤ t.baseindex → t.baseindex ≤ t.max_id →
      ∀ {txid : Nat} {t2 : TxStatusCallbacks Unit},
        t.add_callback () = some (txid, t2) →
        attempt_send env ≠ .sent →
        ∃ hint, dol_send t env =
          some ⟨[RItem.item (.el (ErrorResponse "txfailed" ddo_errors
            (some hint)))], { t2 with callbacks := t.callbacks }, true⟩)
    ∧ (∀ (t : TxStatusCallbacks Unit) (env : SendEnv),
      t.add_callback () = none →
      dol_send t env =
        some ⟨[RItem.item (.el (ErrorResponse "txfull" ddo_errors none))],
          t, false⟩)
    ∧ (∀ (elem : CmdElement) (b64 : Option String → Option (List Nat))
        (t : TxStatusCallbacks Unit) (env : SendEnv) (na : String)
        (m : List Nat),
      ssl_validate_addr elem = .ok na →
      ssl_decode ((elem.attrs.lookup "encoding").getD "base64")
        elem.text b64 = some (.ok m) →
      send_serial_listener elem b64 t env = ssl_send t env)
    ∧ (∀ (elem : CmdElement) (t : TxStatusCallbacks Unit) (env : SendEnv)
        (na : String) (idx : Int),
      pyTruthyAttr (elem.attrs.lookup "addr") = true →
      normalize_ieee_address (.str ((elem.attrs.lookup "addr").getD "")) =
        .ok na →
      dol_resolve_pin (elem.attrs.lookup "index")
        (elem.attrs.lookup "name") = .ok idx →
      idx ≠ 9 →
      parse_digital_value (pyStrip (elem.text.getD "")) ≠ 0 →
      digital_out_listener elem t env = dol_send t env) := by
  refine ⟨?_, ?_, ?_, ?_, ?_, ?_⟩
  · intro t env hlen hb1 hb2 txid t2 hadd hfail
    have hrem := TxStatusCallbacks.add_remove_restores t () hlen hb1 hb2 hadd
    cases henv : attempt_send env with
    | sent => exact absurd henv hfail
    | sockUnavail m => exact ⟨m, by simp [ssl_send, hadd, henv, hrem]⟩
    | sockErr e => exact ⟨errmsgOf e, by simp [ssl_send, hadd, henv, hrem]⟩
    | exc s => exact ⟨s, by simp [ssl_send, hadd, henv, hrem]⟩
  · intro t env hfull
    simp [ssl_send, hfull]
  · intro t env hlen hb1 hb2 txid t2 hadd hfail
    have hrem := TxStatusCallbacks.add_remove_restores t () hlen hb1 hb2 hadd
    cases henv : attempt_send env with
    | sent => exact absurd henv hfail
    | sockUnavail m => exact ⟨m, by simp [dol_send, hadd, henv, hrem]⟩
    | sockErr e => exact ⟨errmsgOf e, by simp [dol_send, hadd, henv, hrem]⟩
    | exc s => exact ⟨s, by simp [dol_send, hadd, henv, hrem]⟩
  · intro t env hfull
    simp [dol_send, hfull]
  · intro elem b64 t env na m hv hd
    simp [send_serial_listener, hv, hd]
  · intro elem t env na idx ha hn hr h9 hpv
    simp [digital_out_listener, ha, hn, hr, h9, hpv]

/-- Claim C5 witness: a fresh table with `max_id = 3` (the allocation
returns id 1), a full table, a send environment whose poll returns
nothing, and concrete validated commands for both listeners. -/
theorem c5_transport_failure_single_error_witness :
    (∃ hint, ssl_send (TxStatusCallbacks.init Unit 3) ⟨[], 0, none⟩ =
      some ⟨[RItem.item (.el (ErrorResponse "txfailed" manager_errors
        (some hint)))],
        { (⟨[none, some (), none, none], 2, 3⟩ : TxStatusCallbacks Unit) with
          callbacks := (TxStatusCallbacks.init Unit 3).callbacks },
        true⟩)
    ∧ ssl_send (⟨[none, some (), some (), some ()], 1, 3⟩ :
        TxStatusCallbacks Unit) ⟨[], 0, none⟩ =
      some ⟨[RItem.item (.el (ErrorResponse "txfull" manager_errors none))],
        ⟨[none, some (), some (), some ()], 1, 3⟩, false⟩
    ∧ (∃ hint, dol_send (TxStatusCallbacks.init Unit 3) ⟨[], 0, none⟩ =
      some ⟨[RItem.item (.el (ErrorResponse "txfailed" ddo_errors
        (some hint)))],
        { (⟨[none, some (), none, none], 2, 3⟩ : TxStatusCallbacks Unit) with
          callbacks := (TxStatusCallbacks.init Unit 3).callbacks },
        true⟩)
    ∧ dol_send (⟨[none, some (), some (), some ()], 1, 3⟩ :
        TxStatusCallbacks Unit) ⟨[], 0, none⟩ =
      some ⟨[RItem.item (.el (ErrorResponse "txfull" ddo_errors none))],
        ⟨[none, some (), some (), some ()], 1, 3⟩, false⟩
    ∧ send_serial_listener ⟨[("addr", "0011223344556677")], some ""⟩
        (fun _ => some []) (TxStatusCallbacks.init Unit 3) ⟨[], 0, none⟩ =
      ssl_send (TxStatusCallbacks.init Unit 3) ⟨[], 0, none⟩
    ∧ digital_out_listener
        ⟨[("addr", "0011223344556677"), ("index", "5")], some "high"⟩
        (TxStatusCallbacks.init Unit 3) ⟨[], 0, none⟩ =
      dol_send (TxStatusCallbacks.init Unit 3) ⟨[], 0, none⟩ :=
  ⟨c5_transport_failure_single_error.1
      (TxStatusCallbacks.init Unit 3) ⟨[], 0, none⟩
      (by decide) (by decide) (by decide)
      (show (TxStatusCallbacks.init Unit 3).add_callback () =
        some (1, ⟨[none, some (), none, none], 2, 3⟩) by decide)
      (by decide),
   c5_transport_failure_single_error.2.1
      (⟨[none, some (), some (), some ()], 1, 3⟩ : TxStatusCallbacks Unit)
      ⟨[], 0, none⟩ (by decide),
   c5_transport_failure_single_error.2.2.1
      (TxStatusCallbacks.init Unit 3) ⟨[], 0, none⟩
      (by decide) (by decide) (by decide)
      (show (TxStatusCallbacks.init Unit 3).add_callback () =
        some (1, ⟨[none, some (), none, none], 2, 3⟩) by decide)
      (by decide),
   c5_transport_failure_single_error.2.2.2.1
      (⟨[none, some (), some (), some ()], 1, 3⟩ : TxStatusCallbacks Unit)
      ⟨[], 0, none⟩ (by decide),
   c5_transport_failure_single_error.2.2.2.2.1
      ⟨[("addr", "0011223344556677")], some ""⟩ (fun _ => some [])
      (TxStatusCallbacks.init Unit 3) ⟨[], 0, none⟩
      "[00:11:22:33:44:55:66:77]!" [] (by rfl) (by rfl),
   c5_transport_failure_single_error.2.2.2.2.2
      ⟨[("addr", "0011223344556677"), ("index", "5")], some "high"⟩
      (TxStatusCallbacks.init Unit 3) ⟨[], 0, none⟩
      "[00:11:22:33:44:55:66:77]!" 5
      (by rfl) (by rfl) (by rfl) (by decide) (by decide)⟩

/-! ## Claim C9 -/

/-- Claim C9: `set_digital_output` rejects pin 9 for every way of naming
it — index attribute "9", the valid aliases DIO9 and D9, and the
deprecated aliases ON and SLEEP that map to pin 9 — with exactly one
immediate error reply, the transmission-ID table untouched (no id
allocated), and no send attempted. -/
theorem c9_pin9_always_rejected :
    (∀ (elem : CmdElement) (t : TxStatusCallbacks Unit) (env : SendEnv)
        (na : String),
      pyTruthyAttr (elem.attrs.lookup "addr") = true →
      normalize_ieee_address (.str ((elem.attrs.lookup "addr").getD "")) =
        .ok na →
      elem.attrs.lookup "index" = some "9" →
      elem.attrs.lookup "name" = none →
      digital_out_listener elem t env =
        some ⟨[RItem.item (.el (ErrorResponse "invalidattr" ddo_errors
          (some "DIO9 cannot be configured for digital")))], t, false⟩)
    ∧ (∀ (elem : CmdElement) (t : TxStatusCallbacks Unit) (env : SendEnv)
        (na : String) (nm : String),
      pyTruthyAttr (elem.attrs.lookup "addr") = true →
      normalize_ieee_address (.str ((elem.attrs.lookup "addr").getD "")) =
        .ok na →
      elem.attrs.lookup "index" = none →
      elem.attrs.lookup "name" = some nm →
      (nm = "DIO9" ∨ nm = "D9") →
      digital_out_listener elem t env =
        some ⟨[RItem.item (.el (ErrorResponse "invalidattr" ddo_errors
          (some "DIO9 cannot be configured for digital")))], t, false⟩)
    ∧ (∀ (elem : CmdElement) (t : TxStatusCallbacks Unit) (env : SendEnv)
        (na : String) (nm : String),
      pyTruthyAttr (elem.attrs.lookup "addr") = true →
      normalize_ieee_address (.str ((elem.attrs.lookup "addr").getD "")) =
        .ok na →
      elem.attrs.lookup "index" = none →
      elem.attrs.lookup "name" = some nm →
      (nm = "ON" ∨ nm = "SLEEP") →
      digital_out_listener elem t env =
        some ⟨[RItem.item (.el (ErrorResponse "invalidattr" ddo_errors
          (some "Bad digital output name; use DIO9 or D9 instead.")))],
          t, false⟩) := by
  refine ⟨?_, ?_, ?_⟩
  · intro elem t env na ha hn hidx hname
    have hr : dol_resolve_pin (some "9") none = .ok 9 := by rfl
    simp [digital_out_listener, ha, hn, hidx, hname, hr]
  · intro elem t env na nm ha hn hidx hname hnm
    rcases hnm with rfl | rfl
    · have hr : dol_resolve_pin none (some "DIO9") = .ok 9 := by rfl
      simp [digital_out_listener, ha, hn, hidx, hname, hr]
    · have hr : dol_resolve_pin none (some "D9") = .ok 9 := by rfl
      simp [digital_out_listener, ha, hn, hidx, hname, hr]
  · intro elem t env na nm ha hn hidx hname hnm
    rcases hnm with rfl | rfl
    · have hr : dol_resolve_pin none (some "ON") =
          .error (ErrorResponse "invalidattr" ddo_errors
            (some "Bad digital output name; use DIO9 or D9 instead.")) := by
        rfl
      simp [digital_out_listener, ha, hn, hidx, hname, hr]
    · have hr : dol_resolve_pin none (some "SLEEP") =
          .error (ErrorResponse "invalidattr" ddo_errors
            (some "Bad digital output name; use DIO9 or D9 instead.")) := by
        rfl
      simp [digital_out_listener, ha, hn, hidx, hname, hr]

/-- Claim C9 witness: all three naming forms at a concrete address and
table. -/
theorem c9_pin9_always_rejected_witness :
    digital_out_listener
        ⟨[("addr", "0011223344556677"), ("index", "9")], some "high"⟩
        (TxStatusCallbacks.init Unit 3) ⟨[], 0, none⟩ =
      some ⟨[RItem.item (.el (ErrorResponse "invalidattr" ddo_errors
        (some "DIO9 cannot be configured for digital")))],
        TxStatusCallbacks.init Unit 3, false⟩
    ∧ digital_out_listener
        ⟨[("addr", "0011223344556677"), ("name", "DIO9")], some "high"⟩
        (TxStatusCallbacks.init Unit 3) ⟨[], 0, none⟩ =
      some ⟨[RItem.item (.el (ErrorResponse "invalidattr" ddo_errors
        (some "DIO9 cannot be configured for digital")))],
        TxStatusCallbacks.init Unit 3, false⟩
    ∧ digital_out_listener
        ⟨[("addr", "0011223344556677"), ("name", "SLEEP")], some "high"⟩
        (TxStatusCallbacks.init Unit 3) ⟨[], 0, none⟩ =
      some ⟨[RItem.item (.el (ErrorResponse "invalidattr" ddo_errors
        (some "Bad digital output name; use DIO9 or D9 instead.")))],
        TxStatusCallbacks.init Unit 3, false⟩ :=
  ⟨c9_pin9_always_rejected.1
      ⟨[("addr", "0011223344556677"), ("index", "9")], some "high"⟩
      (TxStatusCallbacks.init Unit 3) ⟨[], 0, none⟩
      "[00:11:22:33:44:55:66:77]!" (by rfl) (by rfl) (by rfl) (by rfl),
   c9_pin9_always_rejected.2.1
      ⟨[("addr", "0011223344556677"), ("name", "DIO9")], some "high"⟩
      (TxStatusCallbacks.init Unit 3) ⟨[], 0, none⟩
      "[00:11:22:33:44:55:66:77]!" "DIO9"
      (by rfl) (by rfl) (by rfl) (by rfl) (Or.inl rfl),
   c9_pin9_always_rejected.2.2
      ⟨[("addr", "0011223344556677"), ("name", "SLEEP")], some "high"⟩
      (TxStatusCallbacks.init Unit 3) ⟨[], 0, none⟩
      "[00:11:22:33:44:55:66:77]!" "SLEEP"
      (by rfl) (by rfl) (by rfl) (by rfl) (Or.inr rfl)⟩

/-! ## Claim C10 -/

/-- Claim C10: the duplicate-suppression cache always holds the last
value actually published, not the last value received.  Parts: (1) every
analog processing step either suppresses and returns the cache unchanged,
or publishes the reading and stores exactly the published value under the
(address, channel) key; (2) a sub-threshold change against the cached
baseline is suppressed with the cache untouched; (3) once the drift from
the last published baseline reaches the configured minimum change, the
reading is published and becomes the new baseline; (4) and (5) the same
unchanged-or-published dichotomy and suppression for digital readings. -/
theorem c10_cache_holds_last_published :
    (∀ (filtered : Bool) (difference : Int) (lr : String → Option PyVal)
        (a k : String) (v : Int),
      process_analog filtered difference lr a k v = (none, lr) ∨
      process_analog filtered difference lr a k v =
        (some ⟨(a, k), PyVal.intV v⟩,
         fun key => if key = filterKeyOf a k then some (PyVal.intV v)
                    else lr key))
    ∧ (∀ (difference : Int) (lr : String → Option PyVal) (a k : String)
        (v : Int) (old : PyVal),
      lr (filterKeyOf a k) = some old →
      |v - old.toInt| < difference →
      process_analog true difference lr a k v = (none, lr))
    ∧ (∀ (difference : Int) (lr : String → Option PyVal) (a k : String)
        (v : Int) (old : PyVal),
      lr (filterKeyOf a k) = some old →
      difference ≤ |v - old.toInt| →
      process_analog true difference lr a k v =
        (some ⟨(a, k), PyVal.intV v⟩,
         fun key => if key = filterKeyOf a k then some (PyVal.intV v)
                    else lr key))
    ∧ (∀ (filtered : Bool) (lr : String → Option PyVal) (a k : String)
        (v : Bool),
      process_digital filtered lr a k v = (none, lr) ∨
      process_digital filtered lr a k v =
        (some ⟨(a, k), PyVal.boolV v⟩,
         fun key => if key = filterKeyOf a k then some (PyVal.boolV v)
                    else lr key))
    ∧ (∀ (lr : String → Option PyVal) (a k : String) (v : Bool)
        (old : PyVal),
      lr (filterKeyOf a k) = some old →
      pyValEq old (PyVal.boolV v) = true →
      process_digital true lr a k v = (none, lr)) := by
  refine ⟨?_, ?_, ?_, ?_, ?_⟩
  · intro filtered difference lr a k v
    simp only [process_analog]
    split
    · split
      · split
        · exact Or.inl rfl
        · exact Or.inr rfl
      · exact Or.inr rfl
    · exact Or.inr rfl
  · intro difference lr a k v old h1 h2
    simp [process_analog, h1, h2]
  · intro difference lr a k v old h1 h2
    simp [process_analog, h1, not_lt.mpr h2]
  · intro filtered lr a k v
    simp only [process_digital]
    split
    · split
      · split
        · exact Or.inl rfl
        · exact Or.inr rfl
      · exact Or.inr rfl
    · exact Or.inr rfl
  · intro lr a k v old h1 h2
    simp [process_digital, h1, h2]

/-- Claim C10 witness: a cache whose `n1 - AD0` baseline is 10 with
minimum change 5 suppresses 12 and publishes 15; a digital baseline
`true` suppresses a repeated `true`. -/
theorem c10_cache_holds_last_published_witness :
    (process_analog true 5
        (fun key => if key = "n1 - AD0" then some (PyVal.intV 10) else none)
        "n1" "AD0" 12 = (none,
          fun key => if key = "n1 - AD0" then some (PyVal.intV 10) else none) ∨
      process_analog true 5
        (fun key => if key = "n1 - AD0" then some (PyVal.intV 10) else none)
        "n1" "AD0" 12 =
        (some ⟨("n1", "AD0"), PyVal.intV 12⟩,
         fun key => if key = filterKeyOf "n1" "AD0" then some (PyVal.intV 12)
           else if key = "n1 - AD0" then some (PyVal.intV 10) else none))
    ∧ process_analog true 5
        (fun key => if key = "n1 - AD0" then some (PyVal.intV 10) else none)
        "n1" "AD0" 12 = (none,
          fun key => if key = "n1 - AD0" then some (PyVal.intV 10) else none)
    ∧ process_analog true 5
        (fun key => if key = "n1 - AD0" then some (PyVal.intV 10) else none)
        "n1" "AD0" 15 =
        (some ⟨("n1", "AD0"), PyVal.intV 15⟩,
         fun key => if key = filterKeyOf "n1" "AD0" then some (PyVal.intV 15)
           else if key = "n1 - AD0" then some (PyVal.intV 10) else none)
    ∧ process_digital true
        (fun key => if key = "n1 - DIO4" then some (PyVal.boolV true) else none)
        "n1" "DIO4" true = (none,
          fun key => if key = "n1 - DIO4" then some (PyVal.boolV true) else none) :=
  ⟨c10_cache_holds_last_published.1 true 5
      (fun key => if key = "n1 - AD0" then some (PyVal.intV 10) else none)
      "n1" "AD0" 12,
   c10_cache_holds_last_published.2.1 5
      (fun key => if key = "n1 - AD0" then some (PyVal.intV 10) else none)
      "n1" "AD0" 12 (PyVal.intV 10) (by rfl) (by decide),
   c10_cache_holds_last_published.2.2.1 5
      (fun key => if key = "n1 - AD0" then some (PyVal.intV 10) else none)
      "n1" "AD0" 15 (PyVal.intV 10) (by rfl) (by decide),
   c10_cache_holds_last_published.2.2.2.2
      (fun key => if key = "n1 - DIO4" then some (PyVal.boolV true) else none)
      "n1" "DIO4" true (PyVal.boolV true) (by rfl) (by decide)⟩
